import Mathlib

/-!
Verification of the LPC2119 board bring-up (src/hw/arm/lpc2119.c).

The board file constructs a flat system address space, creates a flash
(non-volatile) store and an SRAM (volatile) store, maps both together with a
memory-mapped UART into the address space, allocates 32 interrupt lines routed
through pic_handler to the CPU's hardware-interrupt input, and finally sets the
CPU boot registers and triggers reset.

Definitions are shallow embeddings of the C source.  Behaviour implemented by
the surrounding QEMU infrastructure (memory core, IRQ plumbing, CPU reset
entry), which is not part of the source file, is modelled from the
specification; each such definition carries a doc comment starting with
`Modelled from the spec:`.
-/

namespace LPC

/-- Size unit from qemu/units.h: one kibibyte. -/
def KiB : Nat := 1024

/-- Flash base address (memory map constant from the source). -/
def FLASH_BASE : Nat := 0x00000000

/-- SRAM base address (memory map constant from the source). -/
def SRAM_BASE : Nat := 0x40000000

/-- UART base address (memory map constant from the source). -/
def UART0_BASE : Nat := 0xE000C000

/-- Flash size: 128 KiB. -/
def FLASH_SIZE : Nat := 128 * KiB

/-- SRAM size: 16 KiB. -/
def SRAM_SIZE : Nat := 16 * KiB

/-- Modelled from the spec: the UART region size is implementation-defined;
serial_mm_init (not under src/) maps the 8 UART registers shifted by the
regshift argument 2, i.e. 32 bytes. -/
def UART_REGION_SIZE : Nat := 32

/-- ARM supervisor-mode bits for the CPSR mode field (target/arm declarations,
not under src/; architectural constant). -/
def ARM_CPU_MODE_SVC : Nat := 0x13

/-- CPSR IRQ-disable bit (architectural constant, bit 7). -/
def CPSR_I : Nat := 0x80

/-- CPSR FIQ-disable bit (architectural constant, bit 6). -/
def CPSR_F : Nat := 0x40

/-- The fixed 4-instruction test program embedded in the source
(mov r0, #0; mov r1, #1; str r1, [r0]; b .), as 32-bit words. -/
def test_program : List Nat := [0xe3a00000, 0xe3a01001, 0xe5801000, 0xeafffffe]

/-- Little-endian byte decomposition of a 32-bit word, as stored by the
memcpy of the word array into the (little-endian ARM target) flash. -/
def wordBytesLE (w : Nat) : List Nat :=
  [w % 256, w / 256 % 256, w / 65536 % 256, w / 16777216 % 256]

/-- The bytes the firmware memcpy writes at flash offsets 0..15. -/
def test_program_bytes : List Nat := (test_program.map wordBytesLE).flatten

/-- A byte store backing a memory region: capacity, byte contents, and the
sealed (read-only) flag set by memory_region_set_readonly. -/
structure Store where
  capacity : Nat
  content : Nat → Nat
  sealed : Bool
deriving Inhabited

/-- Errors of the store abstraction (spec section 7 taxonomy). -/
inductive StoreError
  | AccessViolation
  | CapacityExceeded
  | AlreadySealed
deriving DecidableEq

/-- A fresh zero-initialized store, as memory_region_init_ram_nomigrate
produces (RAM is zero-initialized). -/
def Store.create (capacity : Nat) : Store :=
  { capacity := capacity, content := fun _ => 0, sealed := false }

/-- The raw firmware copy: memcpy of the image bytes into the backing RAM
pointer at offset 0, bypassing any permission check (the flash is not yet
read-only at this point of the source). -/
def memcpyFlash (s : Store) (image : List Nat) : Store :=
  { s with content := fun i => if h : i < image.length then image.get ⟨i, h⟩ else s.content i }

/-- memory_region_set_readonly: sets the region's read-only flag. -/
def memory_region_set_readonly (s : Store) (ro : Bool) : Store :=
  { s with sealed := ro }

/-- Modelled from the spec: the checked load operation of the non-volatile
store (spec section 4.2).  The source performs the copy as a raw memcpy
followed by memory_region_set_readonly; the capacity and double-load checks
are the spec contract: CapacityExceeded if the image is larger than the
capacity, AlreadySealed on a second load, and sealing on success. -/
def Store.load (s : Store) (image : List Nat) : Except StoreError Store :=
  if s.sealed then Except.error StoreError.AlreadySealed
  else if s.capacity < image.length then Except.error StoreError.CapacityExceeded
  else Except.ok (memory_region_set_readonly (memcpyFlash s image) true)

/-- Modelled from the spec: permission enforcement on stores is done by the
memory core (not under src/): a write to a sealed (read-only) store fails with
AccessViolation and leaves the content unchanged. -/
def Store.write (s : Store) (off v : Nat) : Except StoreError Store :=
  if s.sealed then Except.error StoreError.AccessViolation
  else Except.ok { s with content := fun i => if i = off then v else s.content i }

/-- Reading one byte of a store. -/
def Store.read (s : Store) (i : Nat) : Nat := s.content i

/-- A region mapped into the system address space: name, base, size, and the
read-only flag it carried when mapped. -/
structure Region where
  name : String
  base : Nat
  size : Nat
  readonly : Bool
deriving DecidableEq, Inhabited

/-- The region describing a store mapped at a base address. -/
def regionOf (n : String) (base : Nat) (s : Store) : Region :=
  { name := n, base := base, size := s.capacity, readonly := s.sealed }

/-- Two regions overlap when their half-open address ranges intersect. -/
def overlaps (a b : Region) : Bool :=
  decide (a.base < b.base + b.size) && decide (b.base < a.base + a.size)

/-- Error of the address-space mapping operation. -/
inductive MapError
  | OverlapError
deriving DecidableEq

/-- Modelled from the spec: mapRegion (the role memory_region_add_subregion
plays in the source; the overlap checking of the memory core is not under
src/) inserts a region into the address space and fails with OverlapError if
its range intersects any previously mapped range (spec section 4.1). -/
def mapRegion (space : List Region) (r : Region) : Except MapError (List Region) :=
  if space.any fun q => overlaps q r then Except.error MapError.OverlapError
  else Except.ok (space ++ [r])

/-- All regions of a space are pairwise non-overlapping. -/
def disjointSpace : List Region → Bool
  | [] => true
  | r :: rest => (rest.all fun q => !(overlaps r q)) && disjointSpace rest

/-- The CPU state touched by the source: boot registers regs[13] (SP) and
regs[15] (PC), the uncached CPSR, the hardware-interrupt input line, counters
of assert/deassert deliveries, and whether cpu_reset has run. -/
structure CPUState where
  regs13 : Nat
  regs15 : Nat
  uncached_cpsr : Nat
  interrupt_hard : Bool
  assertCount : Nat
  deassertCount : Nat
  resetDone : Bool
deriving DecidableEq, Inhabited

/-- Modelled from the spec: cpu_create (target CPU construction, not under
src/) returns a processor with an implementation-default register file;
modelled as all-zero, no pending interrupt, zero delivery counters. -/
def cpu_create : CPUState :=
  { regs13 := 0, regs15 := 0, uncached_cpsr := 0, interrupt_hard := false,
    assertCount := 0, deassertCount := 0, resetDone := false }

/-- Modelled from the spec: cpu_interrupt(cpu, CPU_INTERRUPT_HARD) (not under
src/) asserts the processor's hardware-interrupt input; the counter records
each invocation. -/
def cpu_interrupt (c : CPUState) : CPUState :=
  { c with interrupt_hard := true, assertCount := c.assertCount + 1 }

/-- Modelled from the spec: cpu_reset_interrupt(cpu, CPU_INTERRUPT_HARD) (not
under src/) deasserts the processor's hardware-interrupt input; the counter
records each invocation. -/
def cpu_reset_interrupt (c : CPUState) : CPUState :=
  { c with interrupt_hard := false, deassertCount := c.deassertCount + 1 }

/-- Shallow embedding of pic_handler from the source: the level decides
between assert and deassert of the one hardware-interrupt input; the line
number n is ignored. -/
def pic_handler (cpu : CPUState) (n : Nat) (level : Bool) : CPUState :=
  if level then cpu_interrupt cpu else cpu_reset_interrupt cpu

/-- Modelled from the spec: cpu_reset (the processor's architectural reset
entry, not under src/).  Spec section 4.5: triggerReset invokes the reset
entry, after which the processor begins fetch at whatever PC is now current;
the configured boot registers are preserved. -/
def cpu_reset (c : CPUState) : CPUState :=
  { c with resetDone := true }

/-- The interrupt controller state: the recorded level of each allocated line
and the target CPU the handler delivers to (the source passes s->cpu as the
opaque handler argument). -/
structure Pic where
  levels : List Bool
  cpu : CPUState
deriving DecidableEq, Inhabited

/-- Error of the line signalling operation. -/
inductive IrqError
  | InvalidLineIndex
deriving DecidableEq

/-- qemu_allocate_irqs(pic_handler, cpu, n): n lines, all at level false,
bound to the one target CPU. -/
def qemu_allocate_irqs (cpu : CPUState) (n : Nat) : Pic :=
  { levels := List.replicate n false, cpu := cpu }

/-- Modelled from the spec: qemu_set_irq and the per-line level state are not
under src/.  Spec section 4.4: a false-to-true transition invokes the target's
assert exactly once, true-to-false invokes deassert exactly once, signalling
at an unchanged level records the level without invoking the handler, and an
index outside the allocated range fails with InvalidLineIndex leaving every
line unchanged.  The handler invoked on a transition is pic_handler from the
source. -/
def qemu_set_irq (p : Pic) (i : Nat) (level : Bool) : Pic × Option IrqError :=
  if i < p.levels.length then
    if level = p.levels.getD i false then
      ({ p with levels := p.levels.set i level }, none)
    else
      ({ levels := p.levels.set i level, cpu := pic_handler p.cpu i level }, none)
  else (p, some IrqError.InvalidLineIndex)

/-- The state reached after a successful signal (the error cannot occur for an
in-range index). -/
def signalOk (p : Pic) (i : Nat) (level : Bool) : Pic :=
  (qemu_set_irq p i level).1

/-- The whole board state built by lpc2119_init. -/
structure Board where
  addressSpace : List Region
  flash : Store
  sram : Store
  pic : Pic
deriving Inhabited

/-- The CPU as reachable from the board (the pic's opaque pointer and the
board's CPU are the same object in the source). -/
def Board.cpu (b : Board) : CPUState := b.pic.cpu

/-- The bring-up steps of lpc2119_init, in source order. -/
inductive Step
  | getSystemMemory
  | createCPU
  | createFlash
  | copyFirmware
  | sealFlash
  | mapFlash
  | createSRAM
  | mapSRAM
  | allocateIRQs
  | createUART
  | mapUART
  | configureBoot
  | resetCPU
deriving DecidableEq

/-- Position of a step in the source order. -/
def stepIdx : Step → Nat
  | Step.getSystemMemory => 0
  | Step.createCPU => 1
  | Step.createFlash => 2
  | Step.copyFirmware => 3
  | Step.sealFlash => 4
  | Step.mapFlash => 5
  | Step.createSRAM => 6
  | Step.mapSRAM => 7
  | Step.allocateIRQs => 8
  | Step.createUART => 9
  | Step.mapUART => 10
  | Step.configureBoot => 11
  | Step.resetCPU => 12

/-- Errors of the bring-up, one per fallible step of the source plus map
failure. -/
inductive InitError
  | SysMemFail
  | CpuFail
  | FlashAllocFail
  | SramAllocFail
  | IrqAllocFail
  | UartFail
  | MapFail (e : MapError)
deriving DecidableEq

/-- The diagnostic reported for each failure.  The first two and the last two
step-failure messages are the literal error_report strings of the source; for
the two region allocation failures the source forwards the message carried by
the memory-core error object (not under src/), modelled from the spec as a
message naming the failed step. -/
def InitError.diagnostic : InitError → String
  | InitError.SysMemFail => "Failed to get system memory"
  | InitError.CpuFail => "Failed to create CPU"
  | InitError.FlashAllocFail => "lpc2119.flash: memory region allocation failed"
  | InitError.SramAllocFail => "lpc2119.sram: memory region allocation failed"
  | InitError.IrqAllocFail => "Failed to allocate IRQs"
  | InitError.UartFail => "Failed to initialize UART"
  | InitError.MapFail _ => "overlapping memory region mapping"

/-- The step whose failure each error reports. -/
def failingStep : InitError → Step
  | InitError.SysMemFail => Step.getSystemMemory
  | InitError.CpuFail => Step.createCPU
  | InitError.FlashAllocFail => Step.createFlash
  | InitError.SramAllocFail => Step.createSRAM
  | InitError.IrqAllocFail => Step.allocateIRQs
  | InitError.UartFail => Step.createUART
  | InitError.MapFail _ => Step.mapFlash

/-- Modelled from the spec: the outcome of each fallible allocation performed
by infrastructure outside src/ (system memory lookup, CPU creation, the two
RAM allocations, IRQ allocation, UART creation) is an environment fact; the
oracle records which of them succeed in a given run. -/
structure Env where
  sysMemOk : Bool
  cpuOk : Bool
  flashAllocOk : Bool
  sramAllocOk : Bool
  irqAllocOk : Bool
  uartOk : Bool
deriving DecidableEq

/-- The environment of a run in which every allocation succeeds. -/
def allOkEnv : Env :=
  { sysMemOk := true, cpuOk := true, flashAllocOk := true,
    sramAllocOk := true, irqAllocOk := true, uartOk := true }

/-- The first failing allocation of a run, in the order the source checks
them. -/
def firstFailure (env : Env) : Option InitError :=
  if !env.sysMemOk then some InitError.SysMemFail
  else if !env.cpuOk then some InitError.CpuFail
  else if !env.flashAllocOk then some InitError.FlashAllocFail
  else if !env.sramAllocOk then some InitError.SramAllocFail
  else if !env.irqAllocOk then some InitError.IrqAllocFail
  else if !env.uartOk then some InitError.UartFail
  else none

/-- The steps the source executes strictly before each failure is detected. -/
def stepsBefore : InitError → List Step
  | InitError.SysMemFail => []
  | InitError.CpuFail => [Step.getSystemMemory]
  | InitError.FlashAllocFail => [Step.getSystemMemory, Step.createCPU]
  | InitError.SramAllocFail =>
      [Step.getSystemMemory, Step.createCPU, Step.createFlash,
       Step.copyFirmware, Step.sealFlash, Step.mapFlash]
  | InitError.IrqAllocFail =>
      [Step.getSystemMemory, Step.createCPU, Step.createFlash,
       Step.copyFirmware, Step.sealFlash, Step.mapFlash,
       Step.createSRAM, Step.mapSRAM]
  | InitError.UartFail =>
      [Step.getSystemMemory, Step.createCPU, Step.createFlash,
       Step.copyFirmware, Step.sealFlash, Step.mapFlash,
       Step.createSRAM, Step.mapSRAM, Step.allocateIRQs]
  | InitError.MapFail _ => []

/-- Shallow embedding of lpc2119_init: the straight-line bring-up of the
source, returning the steps executed in order together with the outcome.
Every failure aborts immediately (the source calls exit(1)); on success the
final board state is returned.  The boot-register writes go to the same CPU
object the pic handler was bound to (source aliasing through s->cpu). -/
def lpc2119_init (env : Env) : List Step × Except InitError Board :=
  if !env.sysMemOk then ([], Except.error InitError.SysMemFail) else
  if !env.cpuOk then ([Step.getSystemMemory], Except.error InitError.CpuFail) else
  if !env.flashAllocOk then
    ([Step.getSystemMemory, Step.createCPU], Except.error InitError.FlashAllocFail) else
  let flash1 := memcpyFlash (Store.create FLASH_SIZE) test_program_bytes
  let flash2 := memory_region_set_readonly flash1 true
  match mapRegion [] (regionOf "lpc2119.flash" FLASH_BASE flash2) with
  | Except.error e =>
      ([Step.getSystemMemory, Step.createCPU, Step.createFlash,
        Step.copyFirmware, Step.sealFlash], Except.error (InitError.MapFail e))
  | Except.ok space1 =>
  if !env.sramAllocOk then
    ([Step.getSystemMemory, Step.createCPU, Step.createFlash,
      Step.copyFirmware, Step.sealFlash, Step.mapFlash],
     Except.error InitError.SramAllocFail) else
  let sram0 := Store.create SRAM_SIZE
  match mapRegion space1 (regionOf "lpc2119.sram" SRAM_BASE sram0) with
  | Except.error e =>
      ([Step.getSystemMemory, Step.createCPU, Step.createFlash,
        Step.copyFirmware, Step.sealFlash, Step.mapFlash, Step.createSRAM],
       Except.error (InitError.MapFail e))
  | Except.ok space2 =>
  if !env.irqAllocOk then
    ([Step.getSystemMemory, Step.createCPU, Step.createFlash,
      Step.copyFirmware, Step.sealFlash, Step.mapFlash,
      Step.createSRAM, Step.mapSRAM], Except.error InitError.IrqAllocFail) else
  let pic0 := qemu_allocate_irqs cpu_create 32
  if !env.uartOk then
    ([Step.getSystemMemory, Step.createCPU, Step.createFlash,
      Step.copyFirmware, Step.sealFlash, Step.mapFlash,
      Step.createSRAM, Step.mapSRAM, Step.allocateIRQs],
     Except.error InitError.UartFail) else
  match mapRegion space2 { name := "serial", base := UART0_BASE,
                           size := UART_REGION_SIZE, readonly := false } with
  | Except.error e =>
      ([Step.getSystemMemory, Step.createCPU, Step.createFlash,
        Step.copyFirmware, Step.sealFlash, Step.mapFlash,
        Step.createSRAM, Step.mapSRAM, Step.allocateIRQs, Step.createUART],
       Except.error (InitError.MapFail e))
  | Except.ok space3 =>
  let cpu1 := { pic0.cpu with
                regs13 := SRAM_BASE + SRAM_SIZE,
                regs15 := FLASH_BASE,
                uncached_cpsr := Nat.lor ARM_CPU_MODE_SVC (Nat.lor CPSR_F CPSR_I) }
  let cpu2 := cpu_reset cpu1
  ([Step.getSystemMemory, Step.createCPU, Step.createFlash,
    Step.copyFirmware, Step.sealFlash, Step.mapFlash,
    Step.createSRAM, Step.mapSRAM, Step.allocateIRQs, Step.createUART,
    Step.mapUART, Step.configureBoot, Step.resetCPU],
   Except.ok { addressSpace := space3, flash := flash2, sram := sram0,
               pic := { pic0 with cpu := cpu2 } })

/-- The board produced by a run of the bring-up, when it succeeds. -/
def initBoard (env : Env) : Option Board := (lpc2119_init env).2.toOption

/-- The step trace of a run of the bring-up. -/
def initTrace (env : Env) : List Step := (lpc2119_init env).1

/-- The process exit status of a run: the source calls exit(1) on any failure
and returns normally on success. -/
def exitCode (env : Env) : Nat :=
  match (lpc2119_init env).2 with
  | Except.error _ => 1
  | Except.ok _ => 0

/-- The CPU state at the end of a successful bring-up. -/
def bootCPU (env : Env) : Option CPUState := (initBoard env).map Board.cpu

/-- A trivial board, used only as the default of Option.getD below. -/
def emptyBoard : Board :=
  { addressSpace := [], flash := Store.create 0, sram := Store.create 0,
    pic := { levels := [], cpu := cpu_create } }

/-- The concrete board of the successful run. -/
def board0 : Board := (initBoard allOkEnv).getD emptyBoard

/-- A 32-line pic freshly allocated against a fresh CPU, as the bring-up
creates it. -/
def pic32 : Pic := qemu_allocate_irqs cpu_create 32

/-- A pic with two lines high and the interrupt input asserted, used to show
that deasserting one line ignores the other line's level. -/
def picDemo : Pic :=
  { levels := [true, true],
    cpu := { regs13 := 0, regs15 := 0, uncached_cpsr := 0, interrupt_hard := true,
             assertCount := 1, deassertCount := 0, resetDone := false } }

/-- C1: after bring-up completes (the full sequence of lpc2119_init including
the final cpu_reset), the CPU's boot register state is PC = flash base
(0x00000000), SP = SRAM base + SRAM size (0x40004000), the CPSR mode field is
supervisor, and both the IRQ-disable and FIQ-disable CPSR bits are set. -/
theorem c1_boot_state (env : Env) (c : CPUState) (h : bootCPU env = some c) :
    c.regs15 = FLASH_BASE ∧
    c.regs13 = SRAM_BASE + SRAM_SIZE ∧
    c.regs13 = 0x40004000 ∧
    c.uncached_cpsr % 32 = ARM_CPU_MODE_SVC ∧
    Nat.land c.uncached_cpsr CPSR_I = CPSR_I ∧
    Nat.land c.uncached_cpsr CPSR_F = CPSR_F ∧
    c.resetDone = true := by
  obtain ⟨s, cc, f, r, i, u⟩ := env
  cases s <;> cases cc <;> cases f <;> cases r <;> cases i <;> cases u <;>
    first
      | exact Option.noConfusion h
      | (injection h with hb; subst hb; decide)

/-- Witness for C1 at the all-successful environment. -/
theorem c1_boot_state_witness :
    bootCPU allOkEnv = some
      { regs13 := 0x40004000, regs15 := 0x00000000, uncached_cpsr := 0xD3,
        interrupt_hard := false, assertCount := 0, deassertCount := 0,
        resetDone := true } ∧
    ({ regs13 := 0x40004000, regs15 := 0x00000000, uncached_cpsr := 0xD3,
       interrupt_hard := false, assertCount := 0, deassertCount := 0,
       resetDone := true } : CPUState).regs15 = FLASH_BASE :=
  ⟨by decide,
   (c1_boot_state allOkEnv
     { regs13 := 0x40004000, regs15 := 0x00000000, uncached_cpsr := 0xD3,
       interrupt_hard := false, assertCount := 0, deassertCount := 0,
       resetDone := true } (by decide)).1⟩

/-- C5: bring-up produces exactly the fixed memory map: flash at base
0x00000000 with size 128 KiB, mapped read-only; SRAM at base 0x40000000 with
size 16 KiB, read-write; the UART at base 0xE000C000. -/
theorem c5_memory_map (env : Env) (b : Board) (h : initBoard env = some b) :
    b.addressSpace =
      [{ name := "lpc2119.flash", base := FLASH_BASE, size := FLASH_SIZE, readonly := true },
       { name := "lpc2119.sram", base := SRAM_BASE, size := SRAM_SIZE, readonly := false },
       { name := "serial", base := UART0_BASE, size := UART_REGION_SIZE, readonly := false }] ∧
    FLASH_BASE = 0x00000000 ∧ FLASH_SIZE = 128 * 1024 ∧
    SRAM_BASE = 0x40000000 ∧ SRAM_SIZE = 16 * 1024 ∧
    UART0_BASE = 0xE000C000 ∧
    b.flash.sealed = true ∧ b.sram.sealed = false ∧
    b.flash.capacity = FLASH_SIZE ∧ b.sram.capacity = SRAM_SIZE := by
  obtain ⟨s, cc, f, r, i, u⟩ := env
  cases s <;> cases cc <;> cases f <;> cases r <;> cases i <;> cases u <;>
    first
      | exact Option.noConfusion h
      | (injection h with hb; subst hb;
         exact ⟨by decide, by decide, by decide, by decide, by decide, by decide,
                rfl, rfl, rfl, rfl⟩)

/-- Witness for C5 at the all-successful environment. -/
theorem c5_memory_map_witness :
    initBoard allOkEnv = some board0 ∧
    board0.addressSpace =
      [{ name := "lpc2119.flash", base := FLASH_BASE, size := FLASH_SIZE, readonly := true },
       { name := "lpc2119.sram", base := SRAM_BASE, size := SRAM_SIZE, readonly := false },
       { name := "serial", base := UART0_BASE, size := UART_REGION_SIZE, readonly := false }] :=
  ⟨rfl, (c5_memory_map allOkEnv board0 rfl).1⟩

/-- C7: after bring-up the flash holds exactly the 16 bytes of the fixed
4-instruction firmware program at offsets 0..15, and every byte at offsets
16..131071 is zero. -/
theorem c7_flash_contents (env : Env) (b : Board) (h : initBoard env = some b) :
    test_program_bytes.length = 16 ∧
    (∀ i, i < 16 → b.flash.content i = test_program_bytes.getD i 0) ∧
    (∀ i, 16 ≤ i → i < FLASH_SIZE → b.flash.content i = 0) ∧
    b.flash.capacity = FLASH_SIZE := by
  obtain ⟨s, cc, f, r, i, u⟩ := env
  cases s <;> cases cc <;> cases f <;> cases r <;> cases i <;> cases u <;>
    first
      | exact Option.noConfusion h
      | (injection h with hb; subst hb;
         refine ⟨by decide, by decide, ?_, rfl⟩;
         intro i h16 hsz;
         show (if hi : i < test_program_bytes.length
               then test_program_bytes.get ⟨i, hi⟩ else 0) = 0;
         rw [dif_neg];
         rw [show test_program_bytes.length = 16 from rfl];
         omega)

/-- Witness for C7 at the all-successful environment: byte 3 is the high byte
0xE3 of the first instruction, byte 100 is zero. -/
theorem c7_flash_contents_witness :
    initBoard allOkEnv = some board0 ∧
    board0.flash.content 0 = 0x00 ∧
    board0.flash.content 3 = 0xE3 ∧
    board0.flash.content 100 = 0 :=
  ⟨rfl,
   (c7_flash_contents allOkEnv board0 rfl).2.1 0 (by decide),
   (c7_flash_contents allOkEnv board0 rfl).2.1 3 (by decide),
   (c7_flash_contents allOkEnv board0 rfl).2.2.1 100 (by decide) (by decide)⟩

/-- Disjointness of an address space is inherited by every prefix: the spaces
reached during bring-up are prefixes of the final space, so disjointness of
each extension step carries over to every intermediate state. -/
theorem disjointSpace_of_append (l t : List Region)
    (h : disjointSpace (l ++ t) = true) : disjointSpace l = true := by
  induction l with
  | nil => rfl
  | cons r rest ih =>
    simp only [List.cons_append, disjointSpace, Bool.and_eq_true] at h ⊢
    refine ⟨List.all_eq_true.mpr fun x hx => ?_, ih h.2⟩
    exact List.all_eq_true.mp h.1 x (List.mem_append_left t hx)

/-- C3: mapping a region whose address range intersects a previously mapped
range fails with OverlapError, and at every point during and after bring-up
(every prefix of the final address space, which the space passes through as
it grows) the mapped ranges are pairwise disjoint. -/
theorem c3_disjoint_map :
    (∀ space r,
       (∃ q ∈ space, ∃ x : Nat,
          (q.base ≤ x ∧ x < q.base + q.size) ∧ (r.base ≤ x ∧ x < r.base + r.size)) →
       mapRegion space r = Except.error MapError.OverlapError) ∧
    (∀ env b, initBoard env = some b →
       (∀ l t, l ++ t = b.addressSpace → disjointSpace l = true) ∧
       (∀ q ∈ b.addressSpace, ∀ r ∈ b.addressSpace, q ≠ r →
          ∀ x : Nat, ¬((q.base ≤ x ∧ x < q.base + q.size) ∧
                       (r.base ≤ x ∧ x < r.base + r.size)))) := by
  constructor
  · intro space r h
    obtain ⟨q, hq, x, hx⟩ := h
    have hover : overlaps q r = true := by
      simp only [overlaps, Bool.and_eq_true, decide_eq_true_eq]
      omega
    rw [mapRegion, if_pos]
    exact List.any_eq_true.mpr ⟨q, hq, hover⟩
  · intro env b h
    obtain ⟨s, cc, f, r, i, u⟩ := env
    cases s <;> cases cc <;> cases f <;> cases r <;> cases i <;> cases u <;>
      first
        | exact Option.noConfusion h
        | (injection h with hb; subst hb;
           constructor
           · intro l t hlt
             exact disjointSpace_of_append l t (hlt ▸ (by decide))
           · intro q hq r hr hne x
             simp only [List.nil_append, List.cons_append, List.mem_cons,
                        List.not_mem_nil, or_false] at hq hr
             rcases hq with rfl | rfl | rfl <;> rcases hr with rfl | rfl | rfl <;>
               first
                 | exact absurd rfl hne
                 | (simp only [regionOf, memory_region_set_readonly, memcpyFlash,
                               Store.create, FLASH_BASE, FLASH_SIZE, SRAM_BASE,
                               SRAM_SIZE, UART0_BASE, UART_REGION_SIZE, KiB,
                               not_and];
                    omega))

/-- Witness for C3: the overlap of scenario ranges 0x1000..0x2000 and
0x1800..0x2800 is rejected, and the final bring-up space is disjoint. -/
theorem c3_disjoint_map_witness :
    mapRegion [{ name := "a", base := 0x1000, size := 0x1000, readonly := false }]
        { name := "b", base := 0x1800, size := 0x1000, readonly := false } =
      Except.error MapError.OverlapError ∧
    initBoard allOkEnv = some board0 ∧
    disjointSpace board0.addressSpace = true :=
  ⟨c3_disjoint_map.1 _ _
      ⟨{ name := "a", base := 0x1000, size := 0x1000, readonly := false },
       by simp, 0x1800, by decide⟩,
   rfl,
   (c3_disjoint_map.2 allOkEnv board0 rfl).1 board0.addressSpace []
     (List.append_nil _)⟩

/-- C10: the flash is made read-only strictly before it is mapped into the
system address space (the sealFlash step precedes the mapFlash step in every
run's trace that maps the flash at all), and in the final space the flash
region is marked read-only, so the flash is never reachable writable through
the address space. -/
theorem c10_seal_before_map (env : Env) :
    (Step.mapFlash ∈ initTrace env →
       Step.sealFlash ∈ initTrace env ∧
       (initTrace env).indexOf Step.sealFlash < (initTrace env).indexOf Step.mapFlash) ∧
    (∀ b, initBoard env = some b →
       ∀ r ∈ b.addressSpace, r.name = "lpc2119.flash" → r.readonly = true) := by
  obtain ⟨s, cc, f, r, i, u⟩ := env
  cases s <;> cases cc <;> cases f <;> cases r <;> cases i <;> cases u <;>
    (refine ⟨by decide, ?_⟩;
     intro b h;
     first
       | exact Option.noConfusion h
       | (injection h with hb; subst hb; decide))

/-- Witness for C10 at the all-successful environment. -/
theorem c10_seal_before_map_witness :
    Step.mapFlash ∈ initTrace allOkEnv ∧
    (initTrace allOkEnv).indexOf Step.sealFlash <
      (initTrace allOkEnv).indexOf Step.mapFlash ∧
    initBoard allOkEnv = some board0 ∧
    (∀ r ∈ board0.addressSpace, r.name = "lpc2119.flash" → r.readonly = true) :=
  ⟨by decide,
   ((c10_seal_before_map allOkEnv).1 (by decide)).2,
   rfl,
   (c10_seal_before_map allOkEnv).2 board0 rfl⟩

/-- C4: once the firmware image has been loaded into the non-volatile store,
every write attempt fails with AccessViolation (so the sealed content never
changes), a second load fails with AlreadySealed, and every read of the loaded
range returns the originally loaded bytes; the bring-up's flash is exactly the
result of such a load. -/
theorem c4_sealed_store (s : Store) (img : List Nat) (s2 : Store)
    (h : Store.load s img = Except.ok s2) :
    (∀ off v, Store.write s2 off v = Except.error StoreError.AccessViolation) ∧
    (∀ img2, Store.load s2 img2 = Except.error StoreError.AlreadySealed) ∧
    (∀ i, (hi : i < img.length) → Store.read s2 i = img.get ⟨i, hi⟩) ∧
    s2.sealed = true ∧
    (∀ env b, initBoard env = some b →
       Store.load (Store.create FLASH_SIZE) test_program_bytes = Except.ok b.flash) := by
  unfold Store.load at h
  by_cases hs : s.sealed
  · simp [hs] at h
  · by_cases hc : s.capacity < img.length
    · simp [hs, hc] at h
    · simp only [hs, hc, if_false, Bool.false_eq_true, if_neg,
                 Except.ok.injEq] at h
      subst h
      refine ⟨fun off v => rfl, fun img2 => rfl, fun i hi => ?_, rfl, ?_⟩
      · show (if hh : i < img.length then img.get ⟨i, hh⟩ else s.content i) =
          img.get ⟨i, hi⟩
        rw [dif_pos hi]
      · intro env b hb
        obtain ⟨se, cc, f, r, ir, u⟩ := env
        cases se <;> cases cc <;> cases f <;> cases r <;> cases ir <;> cases u <;>
          first
            | exact Option.noConfusion hb
            | (injection hb with hb2; subst hb2; rfl)

/-- Witness for C4 at a concrete load. -/
theorem c4_sealed_store_witness :
    Store.load (Store.create 4) [7, 8] =
      Except.ok (memory_region_set_readonly (memcpyFlash (Store.create 4) [7, 8]) true) ∧
    Store.write (memory_region_set_readonly (memcpyFlash (Store.create 4) [7, 8]) true) 0 9 =
      Except.error StoreError.AccessViolation ∧
    Store.load (memory_region_set_readonly (memcpyFlash (Store.create 4) [7, 8]) true) [1] =
      Except.error StoreError.AlreadySealed ∧
    Store.read (memory_region_set_readonly (memcpyFlash (Store.create 4) [7, 8]) true) 1 = 8 :=
  ⟨rfl,
   (c4_sealed_store (Store.create 4) [7, 8] _ rfl).1 0 9,
   (c4_sealed_store (Store.create 4) [7, 8] _ rfl).2.1 [1],
   (c4_sealed_store (Store.create 4) [7, 8] _ rfl).2.2.1 1 (by decide)⟩

/-- C8: bring-up is all-or-nothing: when any allocation step fails, the run
ends with exactly the error of the first failing step (whose diagnostic
messages are pairwise distinct, so the message identifies the step), the
process exit status is nonzero, the executed steps are exactly those strictly
before the failing step, and no step is executed twice (no retry). -/
theorem c8_all_or_nothing (env : Env) (e : InitError)
    (h : firstFailure env = some e) :
    (lpc2119_init env).2 = Except.error e ∧
    exitCode env = 1 ∧
    initTrace env = stepsBefore e ∧
    ((initTrace env).all fun st => stepIdx st < stepIdx (failingStep e)) = true ∧
    (initTrace env).Nodup ∧
    List.Pairwise (fun a b => InitError.diagnostic a ≠ InitError.diagnostic b)
      [InitError.SysMemFail, InitError.CpuFail, InitError.FlashAllocFail,
       InitError.SramAllocFail, InitError.IrqAllocFail, InitError.UartFail] := by
  obtain ⟨s, cc, f, r, i, u⟩ := env
  cases s <;> cases cc <;> cases f <;> cases r <;> cases i <;> cases u <;>
    first
      | exact Option.noConfusion h
      | (injection h with he; subst he;
         exact ⟨rfl, rfl, rfl, by decide, by decide, by decide⟩)

/-- Witness for C8 at the run whose UART creation fails. -/
theorem c8_all_or_nothing_witness :
    firstFailure
        { sysMemOk := true, cpuOk := true, flashAllocOk := true,
          sramAllocOk := true, irqAllocOk := true, uartOk := false } =
      some InitError.UartFail ∧
    (lpc2119_init
        { sysMemOk := true, cpuOk := true, flashAllocOk := true,
          sramAllocOk := true, irqAllocOk := true, uartOk := false }).2 =
      Except.error InitError.UartFail ∧
    exitCode
        { sysMemOk := true, cpuOk := true, flashAllocOk := true,
          sramAllocOk := true, irqAllocOk := true, uartOk := false } = 1 ∧
    initTrace
        { sysMemOk := true, cpuOk := true, flashAllocOk := true,
          sramAllocOk := true, irqAllocOk := true, uartOk := false } =
      stepsBefore InitError.UartFail :=
  ⟨rfl,
   (c8_all_or_nothing
     { sysMemOk := true, cpuOk := true, flashAllocOk := true,
       sramAllocOk := true, irqAllocOk := true, uartOk := false }
     InitError.UartFail rfl).1,
   (c8_all_or_nothing
     { sysMemOk := true, cpuOk := true, flashAllocOk := true,
       sramAllocOk := true, irqAllocOk := true, uartOk := false }
     InitError.UartFail rfl).2.1,
   (c8_all_or_nothing
     { sysMemOk := true, cpuOk := true, flashAllocOk := true,
       sramAllocOk := true, irqAllocOk := true, uartOk := false }
     InitError.UartFail rfl).2.2.1⟩

/-- Reading back a line level just set: List.set followed by getD at the same
in-range index yields the written value. -/
theorem getD_set_self (l : List Bool) (i : Nat) (a d : Bool) (h : i < l.length) :
    (l.set i a).getD i d = a := by
  induction l generalizing i with
  | nil => exact absurd h (by simp)
  | cons x xs ih =>
    cases i with
    | zero => rfl
    | succ m =>
      simp only [List.set_cons_succ, List.getD_cons_succ]
      exact ih m (by simpa using h)

/-- C2: signalling a line that is low with level true invokes the CPU's
hardware-interrupt assert exactly once; an immediate second true signal is a
recorded no-op (the whole pic state is unchanged); the following false signal
invokes deassert exactly once; a repeated false signal again changes
nothing. -/
theorem c2_level_transitions (p : Pic) (i : Nat)
    (hlen : i < p.levels.length) (h0 : p.levels.getD i false = false) :
    (signalOk p i true).cpu.assertCount = p.cpu.assertCount + 1 ∧
    (signalOk p i true).cpu.deassertCount = p.cpu.deassertCount ∧
    signalOk (signalOk p i true) i true = signalOk p i true ∧
    (signalOk (signalOk (signalOk p i true) i true) i false).cpu.deassertCount =
      p.cpu.deassertCount + 1 ∧
    (signalOk (signalOk (signalOk p i true) i true) i false).cpu.assertCount =
      (signalOk p i true).cpu.assertCount ∧
    signalOk (signalOk (signalOk (signalOk p i true) i true) i false) i false =
      signalOk (signalOk (signalOk p i true) i true) i false := by
  have h0g : p.levels[i] = false :=
    (List.getD_eq_getElem p.levels false hlen).symm.trans h0
  have hset : ∀ a d : Bool, (p.levels.set i a).getD i d = a := fun a d =>
    getD_set_self p.levels i a d hlen
  have h1 : signalOk p i true =
      Pic.mk (p.levels.set i true) (cpu_interrupt p.cpu) := by
    simp [signalOk, qemu_set_irq, hlen, h0g, pic_handler]
  have h2 : signalOk (Pic.mk (p.levels.set i true) (cpu_interrupt p.cpu)) i true =
      Pic.mk (p.levels.set i true) (cpu_interrupt p.cpu) := by
    simp [signalOk, qemu_set_irq, List.length_set, hlen, hset, List.set_set]
  have h3 : signalOk (Pic.mk (p.levels.set i true) (cpu_interrupt p.cpu)) i false =
      Pic.mk (p.levels.set i false) (cpu_reset_interrupt (cpu_interrupt p.cpu)) := by
    simp [signalOk, qemu_set_irq, List.length_set, hlen, hset, List.set_set,
          pic_handler]
  have h4 : signalOk
      (Pic.mk (p.levels.set i false) (cpu_reset_interrupt (cpu_interrupt p.cpu)))
      i false =
      Pic.mk (p.levels.set i false) (cpu_reset_interrupt (cpu_interrupt p.cpu)) := by
    simp [signalOk, qemu_set_irq, List.length_set, hlen, hset, List.set_set]
  rw [h1, h2, h3, h4]
  simp [cpu_interrupt, cpu_reset_interrupt]

/-- Witness for C2 on line 0 of the freshly allocated 32-line pic. -/
theorem c2_level_transitions_witness :
    0 < pic32.levels.length ∧
    pic32.levels.getD 0 false = false ∧
    (signalOk pic32 0 true).cpu.assertCount = pic32.cpu.assertCount + 1 ∧
    signalOk (signalOk pic32 0 true) 0 true = signalOk pic32 0 true :=
  ⟨by decide, by decide,
   (c2_level_transitions pic32 0 (by decide) (by decide)).1,
   (c2_level_transitions pic32 0 (by decide) (by decide)).2.2.1⟩

/-- C6: the bring-up allocates 32 lines, and signalling any line index outside
the allocated range fails with InvalidLineIndex, returning the pic state
unchanged (no line level is altered). -/
theorem c6_invalid_line :
    (∀ cpu, (qemu_allocate_irqs cpu 32).levels.length = 32) ∧
    (∀ p i level, p.levels.length ≤ i →
       qemu_set_irq p i level = (p, some IrqError.InvalidLineIndex)) := by
  constructor
  · intro cpu
    simp [qemu_allocate_irqs]
  · intro p i level h
    rw [qemu_set_irq, if_neg (by omega)]

/-- Witness for C6: signalling line 32 of the 32-line pic fails and leaves the
state unchanged. -/
theorem c6_invalid_line_witness :
    (qemu_allocate_irqs cpu_create 32).levels.length = 32 ∧
    (qemu_allocate_irqs cpu_create 32).levels.length ≤ 32 ∧
    qemu_set_irq (qemu_allocate_irqs cpu_create 32) 32 true =
      (qemu_allocate_irqs cpu_create 32, some IrqError.InvalidLineIndex) :=
  ⟨c6_invalid_line.1 cpu_create, by decide,
   c6_invalid_line.2 (qemu_allocate_irqs cpu_create 32) 32 true (by decide)⟩

/-- C9: the delivery callback ignores the line index (pic_handler's effect is
the same for any two indices), a low-to-high signal on any single line asserts
the one shared CPU hardware-interrupt input, and a high-to-low signal on any
single line deasserts it regardless of the levels of all other lines (no
OR-aggregation across lines). -/
theorem c9_no_aggregation :
    (∀ c n m level, pic_handler c n level = pic_handler c m level) ∧
    (∀ p i, i < p.levels.length → p.levels.getD i false = false →
       (signalOk p i true).cpu.interrupt_hard = true) ∧
    (∀ p i, i < p.levels.length → p.levels.getD i false = true →
       (signalOk p i false).cpu.interrupt_hard = false) := by
  refine ⟨fun c n m level => rfl, ?_, ?_⟩
  · intro p i hlen h0
    have h0g : p.levels[i] = false :=
      (List.getD_eq_getElem p.levels false hlen).symm.trans h0
    simp [signalOk, qemu_set_irq, hlen, h0g, pic_handler, cpu_interrupt]
  · intro p i hlen h0
    have h0g : p.levels[i] = true :=
      (List.getD_eq_getElem p.levels false hlen).symm.trans h0
    simp [signalOk, qemu_set_irq, hlen, h0g, pic_handler, cpu_reset_interrupt]

/-- Witness for C9: deasserting line 1 clears the interrupt input even though
line 0 is still high. -/
theorem c9_no_aggregation_witness :
    pic_handler cpu_create 3 true = pic_handler cpu_create 21 true ∧
    1 < picDemo.levels.length ∧
    picDemo.levels.getD 1 false = true ∧
    picDemo.levels.getD 0 false = true ∧
    (signalOk picDemo 1 false).cpu.interrupt_hard = false :=
  ⟨c9_no_aggregation.1 cpu_create 3 21 true,
   by decide, by decide, by decide,
   c9_no_aggregation.2.2 picDemo 1 (by decide) (by decide)⟩

end LPC
